import Mathlib

/-
Shallow embedding of the dispatch core of the pythujs framework
(src/pythujs/__init__.py): handler registries, router inclusion, the
REST and WebSocket dispatchers, socket registry sends, validation, the
annotation resolver, and the orchestrator run sequence.

Python dictionaries are modelled as association lists with distinct
keys; assignment `d[k] = v` replaces the value in place when the key is
present and appends otherwise, `d.get(k)` is the first match, and
`d.pop(k, None)` removes the entry with that key (on the distinct-key
lists that model real dicts, removing every match is the same thing).
`None` values are modelled with `Option`.
-/

set_option autoImplicit false

namespace Pythujs

/-- JSON-like values exchanged with clients (payloads, replies). -/
inductive JValue where
  | null
  | str (s : String)
  | num (n : Int)
  | bool (b : Bool)
  | arr (xs : List JValue)
  | obj (fields : List (String × JValue))

/-- Lookup in a dict modelled as an association list: `d.get(k)`. -/
def dget {α : Type} : List (String × α) → String → Option α
  | [], _ => none
  | p :: rest, k => if p.1 = k then some p.2 else dget rest k

/-- Dict assignment `d[k] = v`: replace in place when present, append otherwise. -/
def dinsert {α : Type} : List (String × α) → String → α → List (String × α)
  | [], k, v => [(k, v)]
  | p :: rest, k, v => if p.1 = k then (k, v) :: rest else p :: dinsert rest k v

/-- Dict `d.update(items)`: fold assignment over the items. -/
def dupdate {α : Type} (d items : List (String × α)) : List (String × α) :=
  items.foldl (fun acc p => dinsert acc p.1 p.2) d

/-- Dict `d.pop(k, None)` (the remaining dict): drop the entry keyed `k`. -/
def dpop {α : Type} (d : List (String × α)) (k : String) : List (String × α) :=
  d.filter (fun p => !(p.1 == k))

/-- fastapi.HTTPException, as constructed by the dispatchers. -/
structure HTTPException where
  status_code : Nat
  detail : String
deriving DecidableEq

/-- A schema descriptor, modelled by its validation behavior: pydantic
`model_validate` turns a raw payload into a typed value or fails with a
human-readable cause (the Validator is a pluggable external capability). -/
structure Schema where
  run : JValue → Except String JValue

/-- Result of `PythujsServer.validate` / `Child.validate`: the validated model
instance, or the HTTPException VALUE the method returns (it is returned, not
raised, by the source). -/
inductive ValidateOut where
  | value (v : JValue)
  | exc (e : HTTPException)

/-- PythujsServer.validate: run the model on the payload; on failure return an
HTTPException 422 whose detail carries the cause only when show_errors is set. -/
def PythujsServer.validate (show_errors : Bool) (model : Schema) (json : JValue) : ValidateOut :=
  match model.run json with
  | Except.ok v => ValidateOut.value v
  | Except.error e =>
    ValidateOut.exc ⟨422, if show_errors then "Field validation error: " ++ e else "Field validation error"⟩

/-- Child.validate: identical to the server version except that the detail
always carries the cause, with no show_errors gate (lines 450-454). -/
def Child.validate (show_errors : Bool) (model : Schema) (json : JValue) : ValidateOut :=
  match model.run json with
  | Except.ok v => ValidateOut.value v
  | Except.error e => ValidateOut.exc ⟨422, "Field validation error: " ++ e⟩

/-- A live WebSocket connection. `sid` models `str(id(websocket))`, the opaque
key under which the dispatcher registers it; `faulty` models whether a send on
this transport handle raises. -/
structure Socket where
  sid : String
  faulty : Bool
deriving DecidableEq

/-- The two-field payload handed to ws_send / ws_broadcast. A field is `none`
exactly when `payload.get(k) is None` holds in Python, which conflates an
absent key with a key stored as None (the only check the source performs). -/
structure WsPayload where
  update : Option JValue
  data : Option JValue

/-- Errors escaping the send APIs: a SenderError raised by the field checks,
or an exception raised by the transport send itself. -/
inductive SendErr where
  | sender (msg : String)
  | transport
deriving DecidableEq

/-- Observable outcome of ws_send: which sockets received the payload, and the
error that escaped, if any. -/
structure SendOut where
  sends : List String
  err : Option SendErr
deriving DecidableEq

/-- PythujsServer.ws_send (lines 250-260): check the update field, then the
data field (raising SenderError before any I/O), then look the id up in
active_sockets; absent id is a silent no-op. The payload is a dict, so the
send_json branch of the isinstance test is always taken; a fault from the
transport propagates to the caller. -/
def ws_send (sockets : List (String × Socket)) (uuid : String) (d : WsPayload) : SendOut :=
  if d.update.isNone then ⟨[], some (SendErr.sender "Data must contain an \x27update\x27 field.")⟩
  else if d.data.isNone then ⟨[], some (SendErr.sender "Data must contain a \x27data\x27 field.")⟩
  else
    match dget sockets uuid with
    | some ws => if ws.faulty then ⟨[], some SendErr.transport⟩ else ⟨[ws.sid], none⟩
    | none => ⟨[], none⟩

/-- Outcome of ws_broadcast: delivered sockets, escaped error, and the socket
registry after the loop. -/
structure BroadcastOut where
  sends : List String
  err : Option SendErr
  sockets : List (String × Socket)
deriving DecidableEq

/-- The broadcast loop over the snapshot `list(self.active_sockets.values())`:
each send is tried; a fault pops `str(id(ws))` from the registry and the loop
continues (lines 267-274). -/
def broadcastLoop : List Socket → List (String × Socket) → List String × List (String × Socket)
  | [], reg => ([], reg)
  | ws :: rest, reg =>
    if ws.faulty then broadcastLoop rest (dpop reg ws.sid)
    else
      let r := broadcastLoop rest reg
      (ws.sid :: r.1, r.2)

/-- PythujsServer.ws_broadcast (lines 262-274): the same two field checks as
ws_send, then the snapshot loop with per-socket fault isolation. -/
def ws_broadcast (reg : List (String × Socket)) (d : WsPayload) : BroadcastOut :=
  if d.update.isNone then ⟨[], some (SendErr.sender "Data must contain an \x27update\x27 field."), reg⟩
  else if d.data.isNone then ⟨[], some (SendErr.sender "Data must contain a \x27data\x27 field."), reg⟩
  else
    let r := broadcastLoop (reg.map Prod.snd) reg
    ⟨r.1, none, r.2⟩

/-- Type tags appearing as handler parameter declarations: the injectable
types WebSocket and Request, and the pydantic model classes used on the data
parameter (never present in an injectables dict). -/
inductive TypeTag where
  | websocketT
  | requestT
  | modelT
deriving DecidableEq

/-- An HTTP method of the catch-all REST route. -/
inductive HttpMethod where
  | get
  | post
deriving DecidableEq

/-- One inbound HTTP request as the REST dispatcher sees it: the method, the
query parameters as a flat dict, and the result of parsing the body as JSON. -/
structure RestRequest where
  httpMethod : HttpMethod
  queryParams : JValue
  body : Except String JValue

/-- A concrete injectable instance handed to the resolver for the current
call: the live connection (WS dispatch) or the live request (REST dispatch). -/
inductive InjVal where
  | wsV (s : Socket)
  | reqV (r : RestRequest)

/-- Lookup in the injectables dict keyed by type tag. -/
def tget : List (TypeTag × Option InjVal) → TypeTag → Option (Option InjVal)
  | [], _ => none
  | p :: rest, t => if p.1 = t then some p.2 else tget rest t

/-- PythujsServer.resolve_annotations (lines 276-283), named resolve_annots
here: for every declared parameter name, emit the injectable when its type tag
is a key of obj_dict with a value that is not None, else emit None. -/
def resolve_annots (annot_dict : List (String × TypeTag)) (obj_dict : List (TypeTag × Option InjVal)) :
    List (String × Option InjVal) :=
  match annot_dict with
  | [] => []
  | (name, t) :: rest =>
    (name,
      match tget obj_dict t with
      | some (some v) => some v
      | _ => none) :: resolve_annots rest obj_dict

/-- The slice of `self` a handler closure can read at call time: the keys of
the handler registry, the configured WS endpoint, the show_errors flag, and
the value of the `allowed_methods` attribute when one was ever assigned
(`none` models a missing attribute, whose read raises AttributeError). -/
structure ServerView where
  handlerKeys : List String
  ws_endpoint : String
  show_errors : Bool
  allowed_methods : Option JValue

/-- A Python exception escaping a handler body: an HTTPException raised
deliberately, or any other exception carrying its `str(e)` text. -/
inductive PyExc where
  | httpExc (status : Nat) (detail : String)
  | exc (msg : String)

/-- `str(e)` of an escaped exception, as interpolated by the dispatchers. -/
def pyExcMsg : PyExc → String
  | PyExc.httpExc s d => toString s ++ ": " ++ d
  | PyExc.exc m => m

/-- The `data=` argument a dispatcher passes to a handler: Python None for a
schema-less handler, the validated model instance, or the HTTPException VALUE
that validate returned (the WS loop passes it on without an isinstance check). -/
inductive DataArg where
  | noneA
  | value (v : JValue)
  | exc (e : HTTPException)

/-- A handler callback. The explicit ServerView argument models the `self`
the closure captures; the remaining arguments are the `data=` payload and the
injected keyword dict. -/
def HFun : Type :=
  ServerView → DataArg → List (String × Option InjVal) → Except PyExc JValue

/-- A handler descriptor as stored in the registries:
`{"model": ..., "sig": ..., "func": ...}`. -/
structure Handler where
  model : Option Schema
  sig : List (String × TypeTag)
  func : HFun

/-- A handler registry (`self.handlers`). -/
abbrev Registry := List (String × Handler)

/-- The `data` parameter annotation the decorator inspects: a pydantic
BaseModel subclass, the empty annotation, or anything else. -/
inductive DataAnnot where
  | baseModel (s : Schema)
  | empty
  | other

/-- PythujsServer.new_handler (lines 291-294): store the descriptor under the
bare method name. -/
def PythujsServer.new_handler (handlers : Registry) (method : String) (func : HFun)
    (model : Option Schema) (sig : List (String × TypeTag)) : Registry :=
  dinsert handlers method ⟨model, sig, func⟩

/-- PythujsServer.handler (lines 296-307): the decorator inspects the data
annotation; a BaseModel subclass becomes the schema, an empty annotation
means no schema, and anything else raises HandlerError. -/
def PythujsServer.handler (handlers : Registry) (method : String) (annot : DataAnnot)
    (sig : List (String × TypeTag)) (func : HFun) : Except String Registry :=
  match annot with
  | DataAnnot.baseModel s => Except.ok (PythujsServer.new_handler handlers method func (some s) sig)
  | DataAnnot.empty => Except.ok (PythujsServer.new_handler handlers method func none sig)
  | DataAnnot.other =>
    Except.error "Handler function must have a pydantic BaseModel as data parameter annotation!"

/-- A Router: name, its own handler dict, and the formatted route string
`f"{name}/"` set by `__init__` (lines 355-358). -/
structure Router where
  name : String
  handlers : Registry
  route : String

/-- Router.__init__ (lines 355-358). -/
def Router.init (name : String) : Router :=
  ⟨name, [], name ++ "/"⟩

/-- Router.new_handler (lines 360-363): note that the key is
`self.route + method`, so the route string is already baked into the key the
router holds internally. -/
def Router.new_handler (r : Router) (method : String) (func : HFun)
    (model : Option Schema) (sig : List (String × TypeTag)) : Router :=
  { r with handlers := dinsert r.handlers (r.route ++ method) ⟨model, sig, func⟩ }

/-- Router.handler (lines 365-376): same decorator logic as the server one,
delegating to Router.new_handler. -/
def Router.handler (r : Router) (method : String) (annot : DataAnnot)
    (sig : List (String × TypeTag)) (func : HFun) : Except String Router :=
  match annot with
  | DataAnnot.baseModel s => Except.ok (Router.new_handler r method func (some s) sig)
  | DataAnnot.empty => Except.ok (Router.new_handler r method func none sig)
  | DataAnnot.other =>
    Except.error "Handler function must have a pydantic BaseModel as data parameter annotation!"

/-- PythujsServer.include_router (lines 333-336): merge the router dict into
the server registry with every key rewritten to `f"{router.name}/{k}"`. -/
def PythujsServer.include_router (handlers : Registry) (r : Router) : Registry :=
  dupdate handlers (r.handlers.map (fun p => (r.name ++ "/" ++ p.1, p.2)))

/-- Child.new_handler (lines 456-459): bare method name, no route baked in. -/
def Child.new_handler (handlers : Registry) (method : String) (func : HFun)
    (model : Option Schema) (sig : List (String × TypeTag)) : Registry :=
  dinsert handlers method ⟨model, sig, func⟩

/-- The built-in ping handler body (lines 226-231): the try block only builds
and returns a literal, so the except branch is unreachable. -/
def ping_handler : HFun :=
  fun _ _ _ => Except.ok (JValue.obj [("status", JValue.str "ok")])

/-- The built-in info handler body of the main server (lines 233-241):
returns the registered method names and the configured WS path, read from the
captured self at call time. -/
def info_handler : HFun :=
  fun self _ _ =>
    Except.ok (JValue.obj
      [("handlers", JValue.arr (self.handlerKeys.map JValue.str)),
       ("ws_path", JValue.str self.ws_endpoint)])

/-- str(AttributeError) produced by reading the missing attribute. -/
def childAttrErrMsg : String :=
  "\x27Child\x27 object has no attribute \x27allowed_methods\x27"

/-- The built-in info handler body of a Child (lines 502-511): it also reads
`self.allowed_methods`; when the attribute was never assigned the read raises
AttributeError, the except branch catches it and raises HTTPException 500. -/
def Child.info_handler : HFun :=
  fun self _ _ =>
    match self.allowed_methods with
    | some am =>
      Except.ok (JValue.obj
        [("handlers", JValue.arr (self.handlerKeys.map JValue.str)),
         ("allowed_methods", am),
         ("ws_path", JValue.str self.ws_endpoint)])
    | none =>
      Except.error (PyExc.httpExc 500
        ("Internal server error" ++ (if self.show_errors then ": " ++ childAttrErrMsg else "")))

/-- Child.__init__ (lines 518-568) assigns no `allowed_methods` attribute, so
on a freshly constructed Child the attribute is missing. -/
def Child.instance_allowed_methods : Option JValue := none

/-- The signature dict `func.__annotations__` of the seeded ping handler
`async def ping_handler(data: pingmodel)`: the one data parameter, annotated
with the dynamically built model class. -/
def pingSig : List (String × TypeTag) := [("data", TypeTag.modelT)]

/-- PythujsServer._init_base (lines 224-248): seed ping with the EMPTY dynamic
model built by `self.model()` as its data annotation, and info with no
annotation. `pingmodel` abstracts the dynamically created pydantic class,
whose validation behavior is the external Validator capability. The method
also mounts a GET /pythujs file route on the FastAPI app, which never touches
the handler registry and is outside this embedding. -/
def PythujsServer.init_base (pingmodel : Schema) (handlers : Registry) : Except String Registry := do
  let hs ← PythujsServer.handler handlers "ping" (DataAnnot.baseModel pingmodel) pingSig ping_handler
  let hs ← PythujsServer.handler hs "info" DataAnnot.empty [] info_handler
  return hs

/-- Child._init_base (lines 493-511): same seeding, with the Child info body. -/
def Child.init_base (pingmodel : Schema) (handlers : Registry) : Except String Registry := do
  let hs ← PythujsServer.handler handlers "ping" (DataAnnot.baseModel pingmodel) pingSig ping_handler
  let hs ← PythujsServer.handler hs "info" DataAnnot.empty [] Child.info_handler
  return hs

/-- Behavior of the configured connect hook on one connection: no hook
attribute set, a hook that returns, or a hook that raises with message. -/
inductive HookBehavior where
  | absent
  | ok
  | raises (msg : String)

/-- Observable outcome of the connect phase of _ws_dispatcher. -/
structure WsConnectOut where
  sockets : List (String × Socket)
  loggedError : Option String
  closedConn : Bool
  enteredLoop : Bool

/-- The connect phase of PythujsServer._ws_dispatcher (lines 162-173): accept,
register the connection under `str(id(websocket))`, then run the hook if one
is configured; a hook exception is logged, the connection is closed and the
coroutine returns — the `return` leaves the try block normally, so neither
except clause runs and no entry is popped from active_sockets. -/
def ws_connect_phase (sockets0 : List (String × Socket)) (ws : Socket) (hook : HookBehavior) :
    WsConnectOut :=
  let uid := ws.sid
  let sockets := dinsert sockets0 uid ws
  match hook with
  | HookBehavior.raises msg =>
    ⟨sockets, some ("Error in on_connect: " ++ msg), true, false⟩
  | _ => ⟨sockets, none, false, true⟩

/-- One inbound WS message, as read off the received JSON object:
`payload.get("method")` and `payload.get("data")`. -/
structure WsInMsg where
  method : Option String
  data : Option JValue

/-- Observable outcome of one iteration of the WS message loop: the JSON sent
back on the connection, whether the connection was closed, and whether the
loop proceeds to the next receive. -/
structure WsStepOut where
  sent : JValue
  closed : Bool
  continues : Bool

/-- How Python interpolates `payload.get("method")` into the f-string. -/
def pyStrOpt : Option String → String
  | some s => s
  | none => "None"

/-- The `{"error": msg}` reply shape. -/
def errObj (msg : String) : JValue := JValue.obj [("error", JValue.str msg)]

/-- The injected keyword dict the WS loop builds (lines 186-187): resolve the
signature against `{WebSocket: websocket}`, then pop the data key. -/
def ws_invoke_kwds (h : Handler) (ws : Socket) : List (String × Option InjVal) :=
  dpop (resolve_annots h.sig [(TypeTag.websocketT, some (InjVal.wsV ws))]) "data"

/-- One iteration of the message loop of PythujsServer._ws_dispatcher
(lines 175-191): default the payload to `{}`, look the method up, reply
`{"error": "Handler not found: ..."}` and continue on a miss; otherwise
validate (the HTTPException VALUE returned on failure is passed on as the
data argument — there is no isinstance check here), resolve the injectables,
pop data, invoke, and send the result; an exception inside the try is sent
back as an error object gated by show_errors, and the loop continues. -/
def ws_loop_step (self : ServerView) (handlers : Registry) (ws : Socket) (payload : WsInMsg) :
    WsStepOut :=
  let data := payload.data.getD (JValue.obj [])
  let h? : Option Handler :=
    match payload.method with
    | some m => dget handlers m
    | none => none
  match h? with
  | none => ⟨errObj ("Handler not found: " ++ pyStrOpt payload.method), false, true⟩
  | some h =>
    let model_data : DataArg :=
      match h.model with
      | some m =>
        match PythujsServer.validate self.show_errors m data with
        | ValidateOut.value v => DataArg.value v
        | ValidateOut.exc e => DataArg.exc e
      | none => DataArg.noneA
    match h.func self model_data (ws_invoke_kwds h ws) with
    | Except.ok r => ⟨r, false, true⟩
    | Except.error e =>
      ⟨errObj (if self.show_errors then pyExcMsg e else "Internal server error"), false, true⟩

/-- Terminal outcome of one REST dispatch: an HTTPException raised, an
HTTPException VALUE returned as the response body (the validate branch
returns it instead of raising), or the handler result. -/
inductive RestOutcome where
  | raised (e : HTTPException)
  | returned (e : HTTPException)
  | response (v : JValue)

/-- The injected keyword dict the REST dispatcher builds (lines 216-217):
resolve the signature against `{Request: request}`, then pop the data key. -/
def rest_invoke_kwds (h : Handler) (req : RestRequest) : List (String × Option InjVal) :=
  dpop (resolve_annots h.sig [(TypeTag.requestT, some (InjVal.reqV req))]) "data"

/-- The invocation tail of the REST dispatchers (lines 214-222): inject, pop
data, call the handler; any exception becomes HTTPException 500 whose detail
carries str(e) only when show_errors is set. -/
def restInvoke (self : ServerView) (h : Handler) (req : RestRequest) (data : DataArg) :
    RestOutcome :=
  match h.func self data (rest_invoke_kwds h req) with
  | Except.ok v => RestOutcome.response v
  | Except.error e =>
    RestOutcome.raised ⟨500,
      "Internal server error" ++ (if self.show_errors then ": " ++ pyExcMsg e else "")⟩

/-- PythujsServer._distpatcher (lines 198-222): look the path up (404 on a
miss); with a schema, build the raw input from the query parameters (GET) or
the parsed body (POST), a parse failure raising 422; run validate and RETURN
the HTTPException value on failure; otherwise invoke with the validated data,
or with data None when there is no schema. -/
def PythujsServer.distpatcher (self : ServerView) (handlers : Registry) (path : String)
    (req : RestRequest) : RestOutcome :=
  match dget handlers path with
  | none => RestOutcome.raised ⟨404, "Handler not found for path: " ++ path⟩
  | some h =>
    match h.model with
    | none => restInvoke self h req DataArg.noneA
    | some m =>
      let raw : Except String JValue :=
        match req.httpMethod with
        | HttpMethod.get => Except.ok req.queryParams
        | HttpMethod.post => req.body
      match raw with
      | Except.error e => RestOutcome.raised ⟨422, "Field validation error: " ++ e⟩
      | Except.ok rawv =>
        match PythujsServer.validate self.show_errors m rawv with
        | ValidateOut.exc e => RestOutcome.returned e
        | ValidateOut.value v => restInvoke self h req (DataArg.value v)

/-- Child._distpatcher (lines 415-439): identical, except that it calls
Child.validate, whose 422 detail always carries the cause. -/
def Child.distpatcher (self : ServerView) (handlers : Registry) (path : String)
    (req : RestRequest) : RestOutcome :=
  match dget handlers path with
  | none => RestOutcome.raised ⟨404, "Handler not found for path: " ++ path⟩
  | some h =>
    match h.model with
    | none => restInvoke self h req DataArg.noneA
    | some m =>
      let raw : Except String JValue :=
        match req.httpMethod with
        | HttpMethod.get => Except.ok req.queryParams
        | HttpMethod.post => req.body
      match raw with
      | Except.error e => RestOutcome.raised ⟨422, "Field validation error: " ++ e⟩
      | Except.ok rawv =>
        match Child.validate self.show_errors m rawv with
        | ValidateOut.exc e => RestOutcome.returned e
        | ValidateOut.value v => restInvoke self h req (DataArg.value v)

/-- The ordered events of PythujsServer.run (lines 148-160), children named by
their index in `self.children`. -/
inductive RunEvent where
  | childInit (i : Nat)
  | childStart (i : Nat)
  | mainInit
  | installRoute
  | serveStart
deriving DecidableEq

/-- The for loop of run: for every child, await its base seeding and then
schedule its serve task. -/
def runChildPhase : List Nat → List RunEvent
  | [] => []
  | i :: rest => RunEvent.childInit i :: RunEvent.childStart i :: runChildPhase rest

/-- The full ordered trace of PythujsServer.run up to the gather call: the
child loop, then the optional own base seeding, then installing the catch-all
route and starting to serve. -/
def PythujsServer.runTrace (children : List Nat) (init_base : Bool) : List RunEvent :=
  runChildPhase children
    ++ (if init_base then [RunEvent.mainInit] else [])
    ++ [RunEvent.installRoute, RunEvent.serveStart]

/-- Whether a task completed without an exception. -/
def exceptIsOk {ε α : Type} : Except ε α → Bool
  | Except.ok _ => true
  | Except.error _ => false

/-- asyncio.gather over the completed task results: the first failure
propagates, otherwise the list of results is returned. -/
def asyncGather {ε α : Type} : List (Except ε α) → Except ε (List α)
  | [] => Except.ok []
  | Except.error e :: _ => Except.error e
  | Except.ok a :: rest => (asyncGather rest).map (fun l => a :: l)

/-- The joint wait of run (line 160): `asyncio.gather(self.server.serve(),
*tasks)` over the serve loop of the main node and every child task. -/
def PythujsServer.runJoin {ε : Type} (serveResult : Except ε Unit)
    (childResults : List (Except ε Unit)) : Except ε (List Unit) :=
  asyncGather (serveResult :: childResults)

/-- Helper: a dict lookup right after an assignment of the same key finds the
assigned value. -/
theorem dget_dinsert_self {α : Type} (d : List (String × α)) (k : String) (v : α) :
    dget (dinsert d k v) k = some v := by
  induction d with
  | nil => simp [dinsert, dget]
  | cons p rest ih =>
    by_cases h : p.1 = k
    · simp [dinsert, h, dget]
    · simp [dinsert, h, dget, ih]

/-- Helper: after popping a key, looking it up yields nothing. -/
theorem dget_dpop_self {α : Type} (d : List (String × α)) (k : String) :
    dget (dpop d k) k = none := by
  induction d with
  | nil => rfl
  | cons p rest ih =>
    by_cases h : p.1 = k
    · simpa [dpop, List.filter_cons, h] using ih
    · simpa [dpop, List.filter_cons, h, dget] using ih

/-- Helper: the resolver emits exactly the declared parameter names, in order. -/
theorem resolve_annots_keys (a : List (String × TypeTag)) (o : List (TypeTag × Option InjVal)) :
    (resolve_annots a o).map Prod.fst = a.map Prod.fst := by
  induction a with
  | nil => rfl
  | cons p rest ih => cases p; simp [resolve_annots, ih]

/-- Helper: pointwise description of the resolved dict: each declared name is
bound to the injectable exactly when its tag is a key with a non-None value. -/
theorem dget_resolve_annots (a : List (String × TypeTag)) (o : List (TypeTag × Option InjVal))
    (n : String) :
    dget (resolve_annots a o) n
      = (dget a n).map (fun t =>
          match tget o t with
          | some (some v) => some v
          | _ => none) := by
  induction a with
  | nil => rfl
  | cons p rest ih =>
    cases p with
    | mk name t =>
      by_cases h : name = n
      · simp [resolve_annots, dget, h]
      · simp [resolve_annots, dget, h, ih]

/-- Helper: the broadcast loop delivers to exactly the non-faulty sockets of
the snapshot, in snapshot order, whatever the registry holds. -/
theorem broadcastLoop_sends (snap : List Socket) (reg : List (String × Socket)) :
    (broadcastLoop snap reg).1 = (snap.filter (fun s => !s.faulty)).map Socket.sid := by
  induction snap generalizing reg with
  | nil => rfl
  | cons ws rest ih =>
    cases hf : ws.faulty <;> simp [broadcastLoop, hf, ih]

/-- Helper: the broadcast loop leaves exactly the registry entries whose key
is not the sid of a faulty snapshot socket. -/
theorem broadcastLoop_reg (snap : List Socket) (reg : List (String × Socket)) :
    (broadcastLoop snap reg).2
      = reg.filter (fun p => !(decide (p.1 ∈ (snap.filter Socket.faulty).map Socket.sid))) := by
  induction snap generalizing reg with
  | nil => simp [broadcastLoop]
  | cons ws rest ih =>
    cases hf : ws.faulty
    · simp only [broadcastLoop, hf, Bool.false_eq_true, if_false]
      rw [ih]
      apply List.filter_congr
      intro p _
      have h2 : decide (p.1 ∈ (List.filter Socket.faulty (ws :: rest)).map Socket.sid)
          = decide (p.1 ∈ (List.filter Socket.faulty rest).map Socket.sid) :=
        decide_eq_decide.mpr (by simp [List.filter_cons, hf])
      rw [h2]
    · simp only [broadcastLoop, hf, if_true, ih, dpop, List.filter_filter, List.filter_cons,
        List.map_cons]
      apply List.filter_congr
      intro p _
      simp [List.mem_cons, Bool.and_comm]

/-- Helper: the gather of completed tasks succeeds exactly when every task
completed without an exception. -/
theorem gather_isOk {ε α : Type} (rs : List (Except ε α)) :
    exceptIsOk (asyncGather rs) = rs.all (fun r => exceptIsOk r) := by
  induction rs with
  | nil => rfl
  | cons r rest ih =>
    cases r with
    | error e => simp [asyncGather, exceptIsOk]
    | ok a =>
      have h1 : exceptIsOk (asyncGather (Except.ok a :: rest)) = exceptIsOk (asyncGather rest) := by
        show exceptIsOk ((asyncGather rest).map _) = _
        cases asyncGather rest <;> rfl
      rw [h1, ih, List.all_cons]
      rfl

/-- Helper: every child index has its base-seeding event in the child phase. -/
theorem childInit_mem {children : List Nat} {i : Nat} (h : i ∈ children) :
    RunEvent.childInit i ∈ runChildPhase children := by
  induction children with
  | nil => cases h
  | cons j rest ih =>
    rcases List.mem_cons.mp h with h1 | h2
    · subst h1; simp [runChildPhase]
    · simp [runChildPhase, ih h2]

/-- Helper: every child index has its task-start event in the child phase. -/
theorem childStart_mem {children : List Nat} {i : Nat} (h : i ∈ children) :
    RunEvent.childStart i ∈ runChildPhase children := by
  induction children with
  | nil => cases h
  | cons j rest ih =>
    rcases List.mem_cons.mp h with h1 | h2
    · subst h1; simp [runChildPhase]
    · simp [runChildPhase, ih h2]

/-- Helper: the main base seeding never happens inside the child phase. -/
theorem mainInit_not_mem (children : List Nat) :
    RunEvent.mainInit ∉ runChildPhase children := by
  induction children with
  | nil => simp [runChildPhase]
  | cons j rest ih => simp [runChildPhase, ih]

/-- Claim C1 (code evaluation at the failing input): registering handler
"login" on Router("auth") stores it internally under "auth/login" (NOT under
the bare name "login" the claim states), because Router.new_handler bakes
`self.route` into the key; include_router then prefixes the router name a
second time, so the including registry resolves "auth/auth/login" while the
claimed key "auth/login" does NOT resolve. -/
theorem router_inclusion_double_namespaces_keys (func : HFun) (model : Option Schema)
    (sig : List (String × TypeTag)) :
    (Router.new_handler (Router.init "auth") "login" func model sig).handlers
        = [("auth/login", ⟨model, sig, func⟩)] ∧
    dget (Router.new_handler (Router.init "auth") "login" func model sig).handlers "login"
        = none ∧
    PythujsServer.include_router []
        (Router.new_handler (Router.init "auth") "login" func model sig)
        = [("auth/auth/login", ⟨model, sig, func⟩)] ∧
    dget (PythujsServer.include_router []
        (Router.new_handler (Router.init "auth") "login" func model sig)) "auth/login"
        = none := by
  refine ⟨rfl, ?_, rfl, ?_⟩ <;> simp [Router.new_handler, Router.init, dinsert,
    PythujsServer.include_router, dupdate, dget]

/-- Claim C2, counterexample: on a fresh registry, after the connect hook of
connection "1" raises, the id "1" is STILL present in active_sockets — the
hook-failure branch closes the connection and returns without popping the
entry, refuting the removal the claim asserts. -/
theorem connect_hook_failure_socket_still_registered :
    dget (ws_connect_phase [] ⟨"1", false⟩ (HookBehavior.raises "boom")).sockets "1" ≠ none ∧
    dget (ws_connect_phase [] ⟨"1", false⟩ (HookBehavior.raises "boom")).sockets "1"
      = some ⟨"1", false⟩ := by
  constructor <;> simp [ws_connect_phase, dinsert, dget]

/-- Claim C2 as amended: when the connect hook raises, the dispatcher logs the
error, closes the connection and terminates without entering the message
loop, but the connection id REMAINS registered in active_sockets. -/
theorem connect_hook_failure_logs_closes_but_keeps_socket
    (sockets0 : List (String × Socket)) (ws : Socket) (msg : String) :
    (ws_connect_phase sockets0 ws (HookBehavior.raises msg)).loggedError
        = some ("Error in on_connect: " ++ msg) ∧
    (ws_connect_phase sockets0 ws (HookBehavior.raises msg)).closedConn = true ∧
    (ws_connect_phase sockets0 ws (HookBehavior.raises msg)).enteredLoop = false ∧
    dget (ws_connect_phase sockets0 ws (HookBehavior.raises msg)).sockets ws.sid = some ws :=
  ⟨rfl, rfl, rfl, dget_dinsert_self _ _ _⟩

/-- A concrete schema instance whose validation rejects every input with a
fixed cause, used as the failing test input. -/
def rejectSchema : Schema := ⟨fun _ => Except.error "missing field x"⟩

/-- A handler bound to the rejecting schema. -/
def mHandler : Handler :=
  ⟨some rejectSchema, [("data", TypeTag.modelT)], fun _ _ _ => Except.ok JValue.null⟩

/-- A POST request with an empty JSON object body. -/
def postEmpty : RestRequest := ⟨HttpMethod.post, JValue.obj [], Except.ok (JValue.obj [])⟩

/-- Claim C3 (code evaluation at the failing input): a failing validation is
answered with status 422, and on the MAIN server the detail is the generic
"Field validation error" when show_errors is false and carries the cause when
true, as claimed; but Child.validate (and hence a POST dispatched by a Child
node) puts the cause into the detail even with show_errors false, leaking it
where the claim requires the generic message. -/
theorem child_validate_detail_always_carries_cause :
    PythujsServer.validate false rejectSchema (JValue.obj [])
      = ValidateOut.exc ⟨422, "Field validation error"⟩ ∧
    PythujsServer.validate true rejectSchema (JValue.obj [])
      = ValidateOut.exc ⟨422, "Field validation error: missing field x"⟩ ∧
    Child.validate false rejectSchema (JValue.obj [])
      = ValidateOut.exc ⟨422, "Field validation error: missing field x"⟩ ∧
    PythujsServer.distpatcher ⟨[], "ws", false, none⟩ [("m", mHandler)] "m" postEmpty
      = RestOutcome.returned ⟨422, "Field validation error"⟩ ∧
    Child.distpatcher ⟨[], "ws", false, none⟩ [("m", mHandler)] "m" postEmpty
      = RestOutcome.returned ⟨422, "Field validation error: missing field x"⟩ :=
  ⟨rfl, rfl, rfl, rfl, rfl⟩

/-- Claim C4 (code evaluation at the failing input): base seeding registers
ping WITH the empty dynamic model as its schema (model is some, not the
schema-less None the claim states) on both the main node and a Child; info is
seeded schema-less and on the main node returns the registered method names
with the WS path as claimed; but the Child info handler reads the
allowed_methods attribute that Child.__init__ never assigns, so it raises and
answers HTTP 500 instead of the info object. -/
theorem init_base_ping_has_schema_and_child_info_500 (pingmodel : Schema) (self : ServerView) :
    PythujsServer.init_base pingmodel []
        = Except.ok [("ping", ⟨some pingmodel, pingSig, ping_handler⟩),
                     ("info", ⟨none, [], info_handler⟩)] ∧
    Child.init_base pingmodel []
        = Except.ok [("ping", ⟨some pingmodel, pingSig, ping_handler⟩),
                     ("info", ⟨none, [], Child.info_handler⟩)] ∧
    (dget [("ping", (⟨some pingmodel, pingSig, ping_handler⟩ : Handler)),
           ("info", ⟨none, [], info_handler⟩)] "ping").map Handler.model
        = some (some pingmodel) ∧
    ping_handler self DataArg.noneA [] = Except.ok (JValue.obj [("status", JValue.str "ok")]) ∧
    info_handler self DataArg.noneA []
        = Except.ok (JValue.obj
            [("handlers", JValue.arr (self.handlerKeys.map JValue.str)),
             ("ws_path", JValue.str self.ws_endpoint)]) ∧
    Child.info_handler ⟨self.handlerKeys, self.ws_endpoint, false, Child.instance_allowed_methods⟩
        DataArg.noneA []
        = Except.error (PyExc.httpExc 500 "Internal server error") :=
  ⟨rfl, rfl, rfl, rfl, rfl, rfl⟩

/-- Claim C5: a payload lacking the update field, or lacking the data field,
makes ws_send and ws_broadcast raise SenderError with nothing sent to any
socket; a well-formed payload sent to an id absent from the registry is a
silent no-op: nothing sent, nothing raised. -/
theorem send_apis_field_checks_and_unknown_id_noop (reg : List (String × Socket))
    (uuid : String) (d : WsPayload) :
    (d.update = none →
      ws_send reg uuid d
        = ⟨[], some (SendErr.sender "Data must contain an \x27update\x27 field.")⟩ ∧
      ws_broadcast reg d
        = ⟨[], some (SendErr.sender "Data must contain an \x27update\x27 field."), reg⟩) ∧
    (d.update ≠ none → d.data = none →
      ws_send reg uuid d
        = ⟨[], some (SendErr.sender "Data must contain a \x27data\x27 field.")⟩ ∧
      ws_broadcast reg d
        = ⟨[], some (SendErr.sender "Data must contain a \x27data\x27 field."), reg⟩) ∧
    (d.update ≠ none → d.data ≠ none → dget reg uuid = none →
      ws_send reg uuid d = ⟨[], none⟩) := by
  refine ⟨?_, ?_, ?_⟩
  · intro h
    constructor <;> simp [ws_send, ws_broadcast, h]
  · intro h1 h2
    cases hu : d.update with
    | none => exact absurd hu h1
    | some u => constructor <;> simp [ws_send, ws_broadcast, hu, h2]
  · intro h1 h2 h3
    cases hu : d.update with
    | none => exact absurd hu h1
    | some u =>
      cases hdd : d.data with
      | none => exact absurd hdd h2
      | some v => simp [ws_send, hu, hdd, h3]

/-- Witness for claim C5 at concrete inputs: one payload per failing field
check, and one well-formed payload aimed at an id missing from an empty
registry. -/
theorem send_apis_field_checks_witness :
    ws_send [] "u" ⟨none, some (JValue.num 1)⟩
      = ⟨[], some (SendErr.sender "Data must contain an \x27update\x27 field.")⟩ ∧
    ws_broadcast [] ⟨some (JValue.str "x"), none⟩
      = ⟨[], some (SendErr.sender "Data must contain a \x27data\x27 field."), []⟩ ∧
    ws_send [] "u" ⟨some (JValue.str "x"), some (JValue.num 1)⟩ = ⟨[], none⟩ := by
  refine ⟨((send_apis_field_checks_and_unknown_id_noop [] "u" ⟨none, some (JValue.num 1)⟩).1
      rfl).1,
    ((send_apis_field_checks_and_unknown_id_noop [] "u" ⟨some (JValue.str "x"), none⟩).2.1
      (by simp) rfl).2,
    (send_apis_field_checks_and_unknown_id_noop [] "u"
      ⟨some (JValue.str "x"), some (JValue.num 1)⟩).2.2 (by simp) (by simp) rfl⟩

/-- Claim C6: for a well-formed payload, broadcast delivers to exactly the
connections whose send does not raise, in snapshot order; afterwards the
registry holds exactly the non-faulty entries (every faulty connection was
popped, every non-faulty one remains); and no exception escapes to the
caller. The hypotheses are the registration invariant the dispatcher
maintains: each entry is keyed by the sid of its socket, keys distinct. -/
theorem broadcast_fault_isolation (reg : List (String × Socket)) (d : WsPayload)
    (hkeys : ∀ p ∈ reg, p.1 = p.2.sid) (hnd : (reg.map Prod.fst).Nodup)
    (hu : d.update ≠ none) (hd : d.data ≠ none) :
    ws_broadcast reg d
      = ⟨((reg.map Prod.snd).filter (fun s => !s.faulty)).map Socket.sid, none,
         reg.filter (fun p => !p.2.faulty)⟩ := by
  have hu' : d.update.isNone = false := by cases h : d.update <;> simp_all
  have hd' : d.data.isNone = false := by cases h : d.data <;> simp_all
  simp only [ws_broadcast, hu', hd', Bool.false_eq_true, if_false]
  rw [broadcastLoop_sends, broadcastLoop_reg]
  congr 1
  apply List.filter_congr
  intro p hp
  have key : (p.1 ∈ ((reg.map Prod.snd).filter Socket.faulty).map Socket.sid)
      ↔ p.2.faulty = true := by
    constructor
    · intro hmem
      rcases List.mem_map.mp hmem with ⟨s, hs, hsid⟩
      rcases List.mem_filter.mp hs with ⟨hsmem, hsf⟩
      rcases List.mem_map.mp hsmem with ⟨q, hq, hqs⟩
      have hqp : q = p := by
        apply List.inj_on_of_nodup_map hnd hq hp
        rw [hkeys q hq, hqs, hsid]
      rw [← hqp, hqs]
      exact hsf
    · intro hf
      apply List.mem_map.mpr
      refine ⟨p.2, ?_, (hkeys p hp).symm⟩
      exact List.mem_filter.mpr ⟨List.mem_map.mpr ⟨p, hp, rfl⟩, hf⟩
  have hb : decide (p.1 ∈ ((reg.map Prod.snd).filter Socket.faulty).map Socket.sid)
      = p.2.faulty := by
    cases hb2 : p.2.faulty <;> simp [key, hb2]
  rw [hb]

/-- A three-connection registry whose middle connection faults on send. -/
def regW : List (String × Socket) := [("1", ⟨"1", false⟩), ("2", ⟨"2", true⟩), ("3", ⟨"3", false⟩)]

/-- A payload carrying both required fields. -/
def dGood : WsPayload := ⟨some (JValue.str "u"), some (JValue.num 1)⟩

/-- Witness for claim C6: of three live connections the faulty one is pruned,
the other two receive the payload and stay registered. -/
theorem broadcast_fault_isolation_witness :
    ws_broadcast regW dGood = ⟨["1", "3"], none, [("1", ⟨"1", false⟩), ("3", ⟨"3", false⟩)]⟩ := by
  have h := broadcast_fault_isolation regW dGood (by decide) (by decide) (by simp [dGood])
    (by simp [dGood])
  rw [h]
  rfl

/-- Claim C7: when the method of an inbound WS message does not resolve in the
registry (including a missing method field, interpolated as None), the loop
iteration sends back exactly the object with the single field error set to
"Handler not found: " followed by the method, does not close the connection,
and continues the loop. -/
theorem ws_unknown_method_error_and_loop_continues (self : ServerView) (handlers : Registry)
    (ws : Socket) (payload : WsInMsg)
    (h : (match payload.method with
          | some m => dget handlers m
          | none => none) = none) :
    ws_loop_step self handlers ws payload
      = ⟨errObj ("Handler not found: " ++ pyStrOpt payload.method), false, true⟩ := by
  simp [ws_loop_step, h]

/-- Witness for claim C7: an empty registry and the unknown method "nope". -/
theorem ws_unknown_method_witness :
    (match (some "nope" : Option String) with
      | some m => dget ([] : Registry) m
      | none => none) = none ∧
    ws_loop_step ⟨[], "ws", false, none⟩ [] ⟨"1", false⟩ ⟨some "nope", none⟩
      = ⟨errObj "Handler not found: nope", false, true⟩ := by
  refine ⟨rfl, ?_⟩
  simpa using ws_unknown_method_error_and_loop_continues ⟨[], "ws", false, none⟩ []
    ⟨"1", false⟩ ⟨some "nope", none⟩ rfl

/-- Claim C8: the resolver output has exactly the declared parameter names as
keys; a name is bound to the injectable instance exactly when its type tag is
present in the injectables dict with a non-None value and to None otherwise
(the resolver is total, so unmatched parameters never raise); and both
dispatchers pop the data key from the resolved dict before invoking the
handler. -/
theorem resolve_annots_contract_and_data_popped (annot_dict : List (String × TypeTag))
    (obj_dict : List (TypeTag × Option InjVal)) (n : String) (h : Handler) (ws : Socket)
    (req : RestRequest) :
    (resolve_annots annot_dict obj_dict).map Prod.fst = annot_dict.map Prod.fst ∧
    dget (resolve_annots annot_dict obj_dict) n
      = (dget annot_dict n).map (fun t =>
          match tget obj_dict t with
          | some (some v) => some v
          | _ => none) ∧
    dget (ws_invoke_kwds h ws) "data" = none ∧
    dget (rest_invoke_kwds h req) "data" = none :=
  ⟨resolve_annots_keys _ _, dget_resolve_annots _ _ _, dget_dpop_self _ _, dget_dpop_self _ _⟩

/-- Claim C9: in the run trace every child node has its base seeding and its
task start inside the child phase, the main base seeding is not in the child
phase and the whole trace is the child phase followed by the main seeding and
route installation and serve start; and the joint gather succeeds exactly
when the serve loop and every child task succeed, so a single failure fails
the joint wait. -/
theorem run_children_first_and_joint_wait (children : List Nat) (serveR : Except String Unit)
    (childRs : List (Except String Unit)) :
    (∀ i, i ∈ children →
      RunEvent.childInit i ∈ runChildPhase children ∧
      RunEvent.childStart i ∈ runChildPhase children) ∧
    RunEvent.mainInit ∉ runChildPhase children ∧
    PythujsServer.runTrace children true
      = runChildPhase children ++ [RunEvent.mainInit, RunEvent.installRoute, RunEvent.serveStart] ∧
    exceptIsOk (PythujsServer.runJoin serveR childRs)
      = (serveR :: childRs).all (fun r => exceptIsOk r) := by
  refine ⟨fun i hi => ⟨childInit_mem hi, childStart_mem hi⟩, mainInit_not_mem children, ?_,
    gather_isOk _⟩
  simp [PythujsServer.runTrace]

/-- Witness for claim C9: one child, and a joint wait in which the child task
failed while the serve loop succeeded. -/
theorem run_children_first_witness :
    RunEvent.childInit 0 ∈ runChildPhase [0] ∧ RunEvent.childStart 0 ∈ runChildPhase [0] ∧
    exceptIsOk (PythujsServer.runJoin (Except.ok ()) [Except.error "boom"]) = false := by
  have h := run_children_first_and_joint_wait [0] (Except.ok ()) [Except.error "boom"]
  refine ⟨(h.1 0 (by simp)).1, (h.1 0 (by simp)).2, ?_⟩
  rw [h.2.2.2]
  rfl

/-- Claim C10: a WS message with no data key is processed exactly as the same
message with the empty object as payload — the loop iteration substitutes the
default and proceeds with lookup, validation and invocation, with no
malformed-message rejection. -/
theorem ws_missing_data_key_defaults_to_empty (self : ServerView) (handlers : Registry)
    (ws : Socket) (m : Option String) :
    ws_loop_step self handlers ws ⟨m, none⟩
      = ws_loop_step self handlers ws ⟨m, some (JValue.obj [])⟩ := rfl

end Pythujs
